import Mathlib

/-!
Shallow embedding of the blackjack server (`server.py`): the binary protocol
codec, the deck/hand engine, and the per-round game state machine, together
with theorems checking the specification's claims against these definitions.

Conventions of the embedding:
* a byte buffer is a `List Nat` (each entry one byte, big-endian multi-byte
  fields read by `readBE32`);
* Python's `list.pop()` (pop from the end) is `listPop`;
* a decode that `return None`s is `Unpacked.malformed`; a decode where
  `struct.unpack` raises `struct.error` (buffer longer than the fixed size)
  is `Unpacked.error`;
* the blocking socket is replaced by an explicit list of incoming buffers;
  an exhausted list models `recv` returning `b''` (peer closed).
-/

namespace Blackjack

/-- magic cookie constant `0xabcddcba` from server.py. -/
def MAGIC_COOKIE : Nat := 0xabcddcba

def MESSAGE_TYPE_OFFER : Nat := 0x2

def MESSAGE_TYPE_REQUEST : Nat := 0x3

def MESSAGE_TYPE_PAYLOAD : Nat := 0x4

def RESULT_IN_PROGRESS : Nat := 0x0

def RESULT_TIE : Nat := 0x1

def RESULT_LOSS : Nat := 0x2

def RESULT_WIN : Nat := 0x3

/-- A card `(rank, suit)` with rank 1..13 and suit 0..3. -/
abbrev Card := Nat × Nat

/-- A raw byte buffer: one `Nat` per byte. -/
abbrev Bytes := List Nat

/-- Python's `str.zfill(2)`: left-pad with `'0'` to width two. -/
def zfill2 (s : String) : String :=
  if 2 ≤ s.length then s
  else String.mk (List.replicate (2 - s.length) '0') ++ s

/-- The logical contents of a packed ServerPayload
(`struct.pack('!I B B 2s B', MAGIC_COOKIE, MESSAGE_TYPE_PAYLOAD, result, rank_str, suit)`).
The magic and type fields are the fixed constants, so only the three
varying fields are recorded; `rankStr` is the 2-byte ASCII rank field. -/
structure ServerPayload where
  result : Nat
  rankStr : String
  suit : Nat
deriving DecidableEq, Repr

/-- `BlackjackProtocol.pack_server_payload`: the rank is rendered as a
zero-filled two-digit decimal string. -/
def pack_server_payload (result rank suit : Nat) : ServerPayload :=
  ⟨result, zfill2 (toString rank), suit⟩

/-- Result of running one of the `unpack_*` decoders:
`fields` when the decoder returns the unpacked tuple, `malformed` when it
returns `None` (buffer shorter than the fixed size), `error` when
`struct.unpack` raises `struct.error` (buffer longer than the fixed size). -/
inductive Unpacked (α : Type) where
  | fields : α → Unpacked α
  | malformed : Unpacked α
  | error : Unpacked α
deriving DecidableEq, Repr

/-- Big-endian 32-bit read of the first four bytes of a buffer. -/
def readBE32 (data : Bytes) : Nat :=
  (data.take 4).foldl (fun a b => a * 256 + b) 0

/-- Fields of a Request message (`'!I B B 32s'`). -/
structure RequestMsg where
  magic : Nat
  mtype : Nat
  rounds : Nat
  name : Bytes
deriving DecidableEq, Repr

/-- `BlackjackProtocol.unpack_request`: returns `None` for buffers shorter
than 38 bytes; `struct.unpack('!I B B 32s', data)` requires exactly 38
bytes, so a longer buffer raises `struct.error`. -/
def unpack_request (data : Bytes) : Unpacked RequestMsg :=
  if data.length < 38 then .malformed
  else if data.length = 38 then
    .fields ⟨readBE32 data, data.getD 4 0, data.getD 5 0, data.drop 6⟩
  else .error

/-- One byte of `bytes.decode('utf-8', errors='replace')`, modelled
byte-wise: ASCII bytes decode to themselves, every byte ≥ 0x80 to the
replacement character.  (The protocol's command tokens are pure ASCII; a
5-byte field compares equal to a 5-character ASCII token exactly when its
bytes are that token's ASCII bytes, under both this byte-wise model and
full UTF-8 decoding, so every branch the server takes on the decoded
string is preserved.) -/
def byteChar (b : Nat) : Char :=
  if b < 128 then Char.ofNat b else '�'

/-- Characters removed by Python's `str.strip()` (ASCII whitespace). -/
def isStripSpace (c : Char) : Bool :=
  c = ' ' || c = Char.ofNat 9 || c = Char.ofNat 10 ||
  c = Char.ofNat 13 || c = Char.ofNat 11 || c = Char.ofNat 12

/-- Remove characters satisfying `p` from both ends of a list
(Python's `str.strip` with a character class). -/
def stripEnds (p : Char → Bool) (cs : List Char) : List Char :=
  ((cs.dropWhile p).reverse.dropWhile p).reverse

/-- The decision-token computation of `unpack_client_payload`:
`decision.decode('utf-8', errors='replace').strip('\x00').strip()`. -/
def decodeDecision (bs : Bytes) : String :=
  String.mk (stripEnds isStripSpace
    (stripEnds (fun c => c = Char.ofNat 0) (bs.map byteChar)))

/-- Fields of a ClientDecision message (`'!I B 5s'`): magic, type and the
decoded, stripped decision token. -/
structure ClientDecision where
  magic : Nat
  mtype : Nat
  decision : String
deriving DecidableEq, Repr

/-- `BlackjackProtocol.unpack_client_payload`: returns `None` for buffers
shorter than 10 bytes; `struct.unpack('!I B 5s', data)` requires exactly 10
bytes, so a longer buffer raises `struct.error`.  Note that the magic and
type fields are extracted but NOT validated here (nor by the caller). -/
def unpack_client_payload (data : Bytes) : Unpacked ClientDecision :=
  if data.length < 10 then .malformed
  else if data.length = 10 then
    .fields ⟨readBE32 data, data.getD 4 0, decodeDecision (data.drop 5)⟩
  else .error

/-- `BlackjackEngine.calculate_hand_sum` (server.py): running total over the
hand; Ace (rank 1) always 11, ranks ≥ 10 count 10, others their face value. -/
def calculate_hand_sum (hand : List Card) : Nat :=
  hand.foldl
    (fun total c => total + (if c.1 = 1 then 11 else if 10 ≤ c.1 then 10 else c.1)) 0

/-- Python's `list.pop()`: remove and return the LAST element;
`none` models the `IndexError` raised on an empty list. -/
def listPop (l : List α) : Option (α × List α) :=
  match l.getLast? with
  | none => none
  | some x => some (x, l.dropLast)

/-- How the player-turn loop of `play_game_round` ended:
`bust` — the hit made the total exceed 21: a LOSS payload was sent and the
round returned early; `fall` — control fell out of the `while` loop (total
reached 21, peer closed, short/`None` decode, or a "Stand" token) and the
round proceeds to the dealer turn; `error` — an exception escaped
(over-length buffer raising `struct.error`, or `deck.pop()` on empty). -/
inductive PStat where
  | bust
  | fall
  | error
deriving DecidableEq, Repr

/-- The player-turn loop of `BlackjackServer.play_game_round` (server.py
lines 164-176): `while calculate_hand_sum(player_hand) < 21`, read one
buffer, break on closed channel / `None` decode / "Stand", on "Hittt" pop a
card, append it, send LOSS and return if the new total busts, else send
IN_PROGRESS and continue; any other token loops without sending.
Returns (payloads sent, player hand, deck, unread buffers, exit status). -/
def playerTurn (hand deck : List Card) (inputs : List Bytes) :
    List ServerPayload × List Card × List Card × List Bytes × PStat :=
  if calculate_hand_sum hand < 21 then
    match inputs with
    | [] => ([], hand, deck, [], .fall)
    | data :: rest =>
      if data.isEmpty then ([], hand, deck, rest, .fall)
      else
        match unpack_client_payload data with
        | .malformed => ([], hand, deck, rest, .fall)
        | .error => ([], hand, deck, rest, .error)
        | .fields d =>
          if d.decision = "Stand" then ([], hand, deck, rest, .fall)
          else if d.decision = "Hittt" then
            match listPop deck with
            | none => ([], hand, deck, rest, .error)
            | some (c, deck') =>
              if 21 < calculate_hand_sum (hand ++ [c]) then
                ([pack_server_payload RESULT_LOSS c.1 c.2], hand ++ [c], deck', rest, .bust)
              else
                match playerTurn (hand ++ [c]) deck' rest with
                | (s, h, dk, i, st) =>
                  (pack_server_payload RESULT_IN_PROGRESS c.1 c.2 :: s, h, dk, i, st)
          else
            playerTurn hand deck rest
  else ([], hand, deck, inputs, .fall)

/-- Fuelled worker for the dealer loop.  Each iteration removes one card
from the deck, so `deck.length + 1` units of fuel always suffice; running
out of fuel and `deck.pop()` on an empty deck both yield `none`
(the exception path). -/
def dealerTurnAux : Nat → List Card → List Card →
    Option (List ServerPayload × List Card × List Card)
  | 0, _, _ => none
  | fuel + 1, hand, deck =>
    if calculate_hand_sum hand < 17 then
      match listPop deck with
      | none => none
      | some (c, deck') =>
        match dealerTurnAux fuel (hand ++ [c]) deck' with
        | none => none
        | some (s, h, dk) =>
          some (pack_server_payload RESULT_IN_PROGRESS c.1 c.2 :: s, h, dk)
    else some ([], hand, deck)

/-- The dealer loop of `play_game_round` (server.py lines 179-182):
`while calculate_hand_sum(dealer_hand) < 17`, pop a card, append it, send it
as IN_PROGRESS.  Returns (payloads sent, final dealer hand, deck), or `none`
when `deck.pop()` raises. -/
def dealerTurn (hand deck : List Card) :
    Option (List ServerPayload × List Card × List Card) :=
  dealerTurnAux (deck.length + 1) hand deck

/-- The Resolve step of `play_game_round` (server.py lines 184-193): the
list of payloads sent after comparing the totals.  Note the tie branch
sends a TIE payload and then a second WIN payload. -/
def resolve (p_total d_total : Nat) : List ServerPayload :=
  if 21 < d_total ∨ d_total < p_total then [pack_server_payload RESULT_WIN 0 0]
  else if p_total < d_total then [pack_server_payload RESULT_LOSS 0 0]
  else [pack_server_payload RESULT_TIE 0 0, pack_server_payload RESULT_WIN 0 0]

/-- How a round ended: `done` — normal return; `error` — an exception
escaped `play_game_round` (empty-deck pop or over-length buffer). -/
inductive RStat where
  | done
  | error
deriving DecidableEq, Repr

/-- `BlackjackServer.play_game_round` (server.py lines 155-193) over an
explicit deck and input stream: deal two player cards and two dealer cards
(popping the deck left to right), send the player's cards and the dealer's
first card, run the player-turn loop, and — unless the player busted or an
exception escaped — reveal the dealer's second card, run the dealer loop
and the Resolve step.  Returns (payloads sent, unread buffers, status). -/
def play_game_round (deck : List Card) (inputs : List Bytes) :
    List ServerPayload × List Bytes × RStat :=
  match listPop deck with
  | none => ([], inputs, .error)
  | some (p1, dk1) =>
    match listPop dk1 with
    | none => ([], inputs, .error)
    | some (p2, dk2) =>
      match listPop dk2 with
      | none => ([], inputs, .error)
      | some (c1, dk3) =>
        match listPop dk3 with
        | none => ([], inputs, .error)
        | some (c2, deck4) =>
          let dealSent :=
            [pack_server_payload RESULT_IN_PROGRESS p1.1 p1.2,
             pack_server_payload RESULT_IN_PROGRESS p2.1 p2.2,
             pack_server_payload RESULT_IN_PROGRESS c1.1 c1.2]
          match playerTurn [p1, p2] deck4 inputs with
          | (s, _, _, rem, .bust) => (dealSent ++ s, rem, .done)
          | (s, _, _, rem, .error) => (dealSent ++ s, rem, .error)
          | (s, ph, dk, rem, .fall) =>
            let reveal := pack_server_payload RESULT_IN_PROGRESS c2.1 c2.2
            match dealerTurn [c1, c2] dk with
            | none => (dealSent ++ s ++ [reveal], rem, .error)
            | some (ds, dh, _) =>
              (dealSent ++ s ++ reveal :: ds ++
                 resolve (calculate_hand_sum ph) (calculate_hand_sum dh),
               rem, .done)

/-- The `for _ in range(rounds): self.play_game_round(sock)` loop of
`handle_client`: round `i` uses deck `decks i`; the rounds share the input
stream; an exception in a round aborts the session (caught and swallowed by
`handle_client`).  Returns (payloads sent, number of rounds started). -/
def run_rounds : Nat → (Nat → List Card) → List Bytes → List ServerPayload × Nat
  | 0, _, _ => ([], 0)
  | n + 1, decks, inputs =>
    match play_game_round (decks 0) inputs with
    | (s, _, .error) => (s, 1)
    | (s, rem, .done) =>
      match run_rounds n (fun i => decks (i + 1)) rem with
      | (s', k) => (s ++ s', k + 1)

/-- `BlackjackServer.handle_client` (server.py lines 130-153) given the
first received buffer: empty read, a malformed Request, a `struct.error`,
a wrong magic cookie or a wrong type discriminator all return with nothing
sent; otherwise the requested number of rounds is played.
Returns (payloads sent, number of rounds started). -/
def handle_client (data : Bytes) (decks : Nat → List Card) (inputs : List Bytes) :
    List ServerPayload × Nat :=
  if data.isEmpty then ([], 0)
  else
    match unpack_request data with
    | .error => ([], 0)
    | .malformed => ([], 0)
    | .fields r =>
      if r.magic ≠ MAGIC_COOKIE ∨ r.mtype ≠ MESSAGE_TYPE_REQUEST then ([], 0)
      else run_rounds r.rounds decks inputs

/-- Abstract outcome of the session body run under the `try`/`finally` of
`manage_connection`: it either returns normally or raises. -/
inductive Outcome where
  | ok
  | exn
deriving DecidableEq, Repr

/-- `threading.Semaphore.acquire(blocking=False)` on a semaphore whose
internal counter is `sem`: fails exactly when the counter is zero. -/
def try_acquire (sem : Nat) : Option Nat :=
  if sem = 0 then none else some (sem - 1)

/-- `threading.Semaphore.release`: increment the counter. -/
def release (sem : Nat) : Nat := sem + 1

/-- Observable effect of `manage_connection` on the admission semaphore:
the counter afterwards, how many times `release` ran, and whether
`handle_client` was entered. -/
structure ConnResult where
  sem : Nat
  releases : Nat
  handled : Bool
deriving DecidableEq, Repr

/-- `BlackjackServer.manage_connection` (server.py lines 121-128): fail-fast
acquire, close-and-return on failure, otherwise run the session body inside
`try`/`finally` with the release in the `finally` — so the release runs on
the normal path and on the exception path alike. -/
def manage_connection (sem : Nat) (body : Outcome) : ConnResult :=
  match try_acquire sem with
  | none => ⟨sem, 0, false⟩
  | some sem' =>
    match body with
    | .ok => ⟨release sem', 1, true⟩
    | .exn => ⟨release sem', 1, true⟩

/-- The per-card value exactly as the specification words it: ranks 2-10
count their face value, ranks 11-13 count 10, rank 1 (Ace) always 11. -/
def claimCardValue (rank : Nat) : Nat :=
  if 2 ≤ rank ∧ rank ≤ 10 then rank
  else if 11 ≤ rank ∧ rank ≤ 13 then 10
  else if rank = 1 then 11
  else 0

/-- The outcome value in the priority order the specification words it:
dealer bust → WIN, else player above dealer → WIN, else dealer above
player → LOSS, else TIE. -/
def claimOutcome (p_total d_total : Nat) : Nat :=
  if 21 < d_total then RESULT_WIN
  else if d_total < p_total then RESULT_WIN
  else if p_total < d_total then RESULT_LOSS
  else RESULT_TIE

/-- A well-formed 10-byte ClientDecision buffer carrying "Stand". -/
def standBuf : Bytes := [0xAB, 0xCD, 0xDC, 0xBA, 0x04, 83, 116, 97, 110, 100]

/-- A well-formed 10-byte ClientDecision buffer carrying "Hittt". -/
def hitBuf : Bytes := [0xAB, 0xCD, 0xDC, 0xBA, 0x04, 72, 105, 116, 116, 116]

/-- A 10-byte ClientDecision buffer with magic cookie 0 and type 0 whose
decision bytes spell "Hittt". -/
def badMagicHitBuf : Bytes := [0, 0, 0, 0, 0, 72, 105, 116, 116, 116]

/-- A four-card deck dealing player (10,0),(10,1) and dealer (10,2),(10,3):
both totals 20, a tied round after a Stand. -/
def tieDeck : List Card := [(10, 3), (10, 2), (10, 1), (10, 0)]

/-- A five-card deck dealing player (10,0),(9,1) and dealer (5,2),(6,3),
with (5,0) next: one hit busts the player at 24. -/
def bustDeck : List Card := [(5, 0), (6, 3), (5, 2), (9, 1), (10, 0)]

/-- A five-card deck dealing the player two Aces (total 22 under the strict
rule) and the dealer (10,2),(6,3), with (9,0) next (dealer busts at 25). -/
def acesDeck : List Card := [(9, 0), (6, 3), (10, 2), (1, 1), (1, 0)]

/-- A 38-byte Request buffer with magic cookie 0xDEADBEEF. -/
def badMagicRequest : Bytes :=
  0xDE :: 0xAD :: 0xBE :: 0xEF :: 0x03 :: 1 :: List.replicate 32 0

theorem foldl_add_sum (f : α → Nat) :
    ∀ (l : List α) (a : Nat), l.foldl (fun t c => t + f c) a = a + (l.map f).sum
  | [], a => by simp
  | x :: l, a => by
    simp only [List.foldl_cons, List.map_cons, List.sum_cons, foldl_add_sum f l]
    omega

theorem calculate_hand_sum_eq_sum (hand : List Card) :
    calculate_hand_sum hand =
      (hand.map (fun c => if c.1 = 1 then 11 else if 10 ≤ c.1 then 10 else c.1)).sum := by
  unfold calculate_hand_sum
  rw [foldl_add_sum]
  simp

/-- C2: for every pair of final totals at the Resolve step, the outcome the
server sends is determined in the claimed priority order: dealer total above
21 yields WIN, else player total above dealer total yields WIN, else dealer
total above player total yields LOSS, else (equal totals) TIE.  Stated
about the first (outcome-determining) payload of the Resolve step; the
extra payload the tie branch appends afterwards is the C1 defect. -/
theorem resolve_outcome_priority (p_total d_total : Nat) :
    (resolve p_total d_total).head? =
      some (pack_server_payload (claimOutcome p_total d_total) 0 0) := by
  unfold resolve claimOutcome
  by_cases h1 : 21 < d_total
  · simp [h1]
  · by_cases h2 : d_total < p_total
    · simp [h1, h2]
    · by_cases h3 : p_total < d_total
      · simp [h1, h2, h3]
      · simp [h1, h2, h3]

/-- C4: for every hand of cards with ranks in 1..13, `calculate_hand_sum`
is the sum of the per-card values the claim states (2-10 face value, 11-13
count 10, Ace always 11 with no soft-ace adjustment); it is invariant under
permutation of the hand, and the hand of the four highest ranks totals 40. -/
theorem hand_total_strict_ace (hand hand' : List Card)
    (hranks : ∀ c ∈ hand, 1 ≤ c.1 ∧ c.1 ≤ 13)
    (hperm : hand.Perm hand') :
    calculate_hand_sum hand = (hand.map (fun c => claimCardValue c.1)).sum ∧
    calculate_hand_sum hand = calculate_hand_sum hand' ∧
    calculate_hand_sum [(10, 0), (11, 1), (12, 2), (13, 3)] = 40 := by
  refine ⟨?_, ?_, by rfl⟩
  · rw [calculate_hand_sum_eq_sum]
    congr 1
    apply List.map_congr_left
    intro c hc
    have hr := hranks c hc
    unfold claimCardValue
    split_ifs <;> omega
  · rw [calculate_hand_sum_eq_sum, calculate_hand_sum_eq_sum]
    exact List.Perm.sum_eq (hperm.map _)

/-- Witness for C4 at the concrete hands `[(1,0),(5,2)]` / `[(5,2),(1,0)]`. -/
theorem hand_total_strict_ace_witness :
    ((∀ c ∈ ([(1, 0), (5, 2)] : List Card), 1 ≤ c.1 ∧ c.1 ≤ 13) ∧
      ([(1, 0), (5, 2)] : List Card).Perm [(5, 2), (1, 0)]) ∧
    (calculate_hand_sum [(1, 0), (5, 2)] =
        (([(1, 0), (5, 2)] : List Card).map (fun c => claimCardValue c.1)).sum ∧
      calculate_hand_sum [(1, 0), (5, 2)] = calculate_hand_sum [(5, 2), (1, 0)] ∧
      calculate_hand_sum [(10, 0), (11, 1), (12, 2), (13, 3)] = 40) :=
  ⟨⟨by decide, by decide⟩,
    hand_total_strict_ace [(1, 0), (5, 2)] [(5, 2), (1, 0)] (by decide) (by decide)⟩

theorem unpack_client_payload_short (data : Bytes) (hlen : data.length < 10) :
    unpack_client_payload data = .malformed := by
  unfold unpack_client_payload
  rw [if_pos hlen]

theorem unpack_client_payload_len10 (data : Bytes) (hlen : data.length = 10) :
    unpack_client_payload data =
      .fields ⟨readBE32 data, data.getD 4 0, decodeDecision (data.drop 5)⟩ := by
  unfold unpack_client_payload
  rw [if_neg (by omega), if_pos hlen]

theorem playerTurn_of_ge21 (hand deck : List Card) (inputs : List Bytes)
    (h : 21 ≤ calculate_hand_sum hand) :
    playerTurn hand deck inputs = ([], hand, deck, inputs, .fall) := by
  rw [playerTurn.eq_def, if_neg (by omega)]

theorem playerTurn_hittt_eq (hand deck deck' : List Card) (c : Card)
    (data : Bytes) (rest : List Bytes)
    (hlt : calculate_hand_sum hand < 21) (hlen : data.length = 10)
    (htok : decodeDecision (data.drop 5) = "Hittt")
    (hpop : listPop deck = some (c, deck')) :
    playerTurn hand deck (data :: rest) =
      if 21 < calculate_hand_sum (hand ++ [c]) then
        ([pack_server_payload RESULT_LOSS c.1 c.2], hand ++ [c], deck', rest, .bust)
      else
        match playerTurn (hand ++ [c]) deck' rest with
        | (s, h, dk, i, st) =>
          (pack_server_payload RESULT_IN_PROGRESS c.1 c.2 :: s, h, dk, i, st) := by
  have hne : data.isEmpty = false := by
    cases data with
    | nil => simp at hlen
    | cons a l => rfl
  rw [playerTurn.eq_def, if_pos hlt]
  simp only [hne, Bool.false_eq_true, if_false,
    unpack_client_payload_len10 data hlen, htok]
  rw [if_neg (by decide)]
  simp only [if_true, hpop]

theorem play_game_round_bust (deck0 : List Card) (inputs0 : List Bytes)
    (p1 p2 c1 c2 : Card) (dk1 dk2 dk3 deck4 : List Card)
    (s : List ServerPayload) (h dk : List Card) (rem : List Bytes)
    (h1 : listPop deck0 = some (p1, dk1)) (h2 : listPop dk1 = some (p2, dk2))
    (h3 : listPop dk2 = some (c1, dk3)) (h4 : listPop dk3 = some (c2, deck4))
    (hpt : playerTurn [p1, p2] deck4 inputs0 = (s, h, dk, rem, .bust)) :
    play_game_round deck0 inputs0 =
      ([pack_server_payload RESULT_IN_PROGRESS p1.1 p1.2,
        pack_server_payload RESULT_IN_PROGRESS p2.1 p2.2,
        pack_server_payload RESULT_IN_PROGRESS c1.1 c1.2] ++ s, rem, .done) := by
  unfold play_game_round
  simp only [h1, h2, h3, h4, hpt]

/-- C1: refuted by the code (code bug).  At a round that reaches the
Resolve step with equal totals — player (10,0),(10,1) and dealer
(10,2),(10,3), all totals 20, player stands — the server sends TWO final
outcome payloads, a TIE immediately followed by an extra WIN, instead of
exactly one; both do carry the sentinel rank "00" and suit 0. -/
theorem tie_double_send :
    (play_game_round tieDeck [standBuf]).1.filter
        (fun m => m.result != RESULT_IN_PROGRESS) =
      [pack_server_payload RESULT_TIE 0 0, pack_server_payload RESULT_WIN 0 0] := by
  decide

/-- C3 counterexample: a 10-byte ClientDecision buffer with magic cookie 0
and type discriminator 0 is not reported malformed — the decoder returns
its fields — and the player-turn loop acts on its "Hittt" token, drawing
the card (2,0) and sending it. -/
theorem client_decision_magic_unchecked :
    unpack_client_payload badMagicHitBuf ≠ .malformed ∧
    unpack_client_payload badMagicHitBuf = .fields ⟨0, 0, "Hittt"⟩ ∧
    playerTurn [(5, 0), (5, 1)] [(2, 0)] [badMagicHitBuf] =
      ([pack_server_payload RESULT_IN_PROGRESS 2 0],
       [(5, 0), (5, 1), (2, 0)], [], [], .fall) := by
  refine ⟨by decide, by decide, by decide⟩

/-- C3 amended: decoding a ClientDecision returns the malformed indication
exactly when the buffer is shorter than its fixed 10-byte size; on a
10-byte buffer the magic and type fields are extracted without any
validation, and the player-turn loop acts on a "Hittt" decision token
regardless of the magic/type values — it draws the popped card and sends a
payload carrying that card. -/
theorem client_decision_decode_amended (data : Bytes)
    (hand deck deck' : List Card) (c : Card) (rest : List Bytes)
    (hlen : data.length = 10)
    (htok : decodeDecision (data.drop 5) = "Hittt")
    (hlt : calculate_hand_sum hand < 21)
    (hpop : listPop deck = some (c, deck')) :
    (∀ d : Bytes, d.length < 10 → unpack_client_payload d = .malformed) ∧
    unpack_client_payload data =
      .fields ⟨readBE32 data, data.getD 4 0, decodeDecision (data.drop 5)⟩ ∧
    ∃ r s, (playerTurn hand deck (data :: rest)).1 =
      pack_server_payload r c.1 c.2 :: s := by
  refine ⟨fun d hd => unpack_client_payload_short d hd,
    unpack_client_payload_len10 data hlen, ?_⟩
  rw [playerTurn_hittt_eq hand deck deck' c data rest hlt hlen htok hpop]
  by_cases hb : 21 < calculate_hand_sum (hand ++ [c])
  · exact ⟨RESULT_LOSS, [], by rw [if_pos hb]⟩
  · refine ⟨RESULT_IN_PROGRESS, (playerTurn (hand ++ [c]) deck' rest).1, ?_⟩
    rw [if_neg hb]

/-- Witness for C3's amended theorem at the bad-magic "Hittt" buffer. -/
theorem client_decision_decode_amended_witness :
    (badMagicHitBuf.length = 10 ∧
      decodeDecision (badMagicHitBuf.drop 5) = "Hittt" ∧
      calculate_hand_sum [(5, 0), (5, 1)] < 21 ∧
      listPop [((2 : Nat), (0 : Nat))] = some ((2, 0), [])) ∧
    ((∀ d : Bytes, d.length < 10 → unpack_client_payload d = .malformed) ∧
      unpack_client_payload badMagicHitBuf =
        .fields ⟨readBE32 badMagicHitBuf, badMagicHitBuf.getD 4 0,
          decodeDecision (badMagicHitBuf.drop 5)⟩ ∧
      ∃ r s, (playerTurn [(5, 0), (5, 1)] [(2, 0)] [badMagicHitBuf]).1 =
        pack_server_payload r 2 0 :: s) :=
  ⟨⟨by decide, by decide, by decide, by decide⟩,
    client_decision_decode_amended badMagicHitBuf [(5, 0), (5, 1)] [(2, 0)] []
      (2, 0) [] (by decide) (by decide) (by decide) (by decide)⟩

/-- C5: when the player-turn loop, with the player total still below 21,
receives a 10-byte buffer whose decision token is exactly "Hittt", one card
is popped from the deck and appended to the player hand; if the new total
exceeds 21 that card is sent with result LOSS and the loop exits as a bust,
in which case the whole round ends immediately with no dealer-turn
messages; otherwise the card is sent with result IN_PROGRESS and the loop
continues on the grown hand. -/
theorem hittt_step (hand deck deck' : List Card) (c : Card)
    (data : Bytes) (rest : List Bytes)
    (hlt : calculate_hand_sum hand < 21) (hlen : data.length = 10)
    (htok : decodeDecision (data.drop 5) = "Hittt")
    (hpop : listPop deck = some (c, deck')) :
    (21 < calculate_hand_sum (hand ++ [c]) →
      playerTurn hand deck (data :: rest) =
        ([pack_server_payload RESULT_LOSS c.1 c.2], hand ++ [c], deck', rest, .bust)) ∧
    (calculate_hand_sum (hand ++ [c]) ≤ 21 →
      playerTurn hand deck (data :: rest) =
        (pack_server_payload RESULT_IN_PROGRESS c.1 c.2 ::
            (playerTurn (hand ++ [c]) deck' rest).1,
          (playerTurn (hand ++ [c]) deck' rest).2.1,
          (playerTurn (hand ++ [c]) deck' rest).2.2.1,
          (playerTurn (hand ++ [c]) deck' rest).2.2.2.1,
          (playerTurn (hand ++ [c]) deck' rest).2.2.2.2)) ∧
    (∀ (deck0 : List Card) (inputs0 : List Bytes) (p1 p2 c1 c2 : Card)
        (dk1 dk2 dk3 deck4 : List Card) (s : List ServerPayload)
        (h dk : List Card) (rem : List Bytes),
      listPop deck0 = some (p1, dk1) → listPop dk1 = some (p2, dk2) →
      listPop dk2 = some (c1, dk3) → listPop dk3 = some (c2, deck4) →
      playerTurn [p1, p2] deck4 inputs0 = (s, h, dk, rem, .bust) →
      play_game_round deck0 inputs0 =
        ([pack_server_payload RESULT_IN_PROGRESS p1.1 p1.2,
          pack_server_payload RESULT_IN_PROGRESS p2.1 p2.2,
          pack_server_payload RESULT_IN_PROGRESS c1.1 c1.2] ++ s, rem, .done)) := by
  refine ⟨?_, ?_,
    fun deck0 inputs0 p1 p2 c1 c2 dk1 dk2 dk3 deck4 s h dk rem h1 h2 h3 h4 hpt =>
      play_game_round_bust deck0 inputs0 p1 p2 c1 c2 dk1 dk2 dk3 deck4
        s h dk rem h1 h2 h3 h4 hpt⟩
  · intro hb
    rw [playerTurn_hittt_eq hand deck deck' c data rest hlt hlen htok hpop,
      if_pos hb]
  · intro hnb
    rw [playerTurn_hittt_eq hand deck deck' c data rest hlt hlen htok hpop,
      if_neg (by omega)]

/-- Witness for C5 at a hit that busts: player (10,0),(9,1) at 19 hits and
draws (5,0) for 24; the same cards arranged as the round deck `bustDeck`
show the round ending right after the LOSS payload. -/
theorem hittt_step_witness :
    (calculate_hand_sum [((10 : Nat), (0 : Nat)), (9, 1)] < 21 ∧
      hitBuf.length = 10 ∧
      decodeDecision (hitBuf.drop 5) = "Hittt" ∧
      listPop [((5 : Nat), (0 : Nat))] = some ((5, 0), [])) ∧
    playerTurn [(10, 0), (9, 1)] [(5, 0)] [hitBuf] =
      ([pack_server_payload RESULT_LOSS 5 0],
       [(10, 0), (9, 1), (5, 0)], [], [], .bust) ∧
    play_game_round bustDeck [hitBuf] =
      ([pack_server_payload RESULT_IN_PROGRESS 10 0,
        pack_server_payload RESULT_IN_PROGRESS 9 1,
        pack_server_payload RESULT_IN_PROGRESS 5 2] ++
        [pack_server_payload RESULT_LOSS 5 0], [], .done) :=
  ⟨⟨by decide, by decide, by decide, by decide⟩,
    (hittt_step [(10, 0), (9, 1)] [(5, 0)] [] (5, 0) hitBuf []
      (by decide) (by decide) (by decide) (by decide)).1 (by decide),
    (hittt_step [(10, 0), (9, 1)] [(5, 0)] [] (5, 0) hitBuf []
      (by decide) (by decide) (by decide) (by decide)).2.2
      bustDeck [hitBuf] (10, 0) (9, 1) (5, 2) (6, 3)
      [(5, 0), (6, 3), (5, 2), (9, 1)] [(5, 0), (6, 3), (5, 2)]
      [(5, 0), (6, 3)] [(5, 0)]
      [pack_server_payload RESULT_LOSS 5 0] [(10, 0), (9, 1), (5, 0)] [] []
      (by decide) (by decide) (by decide) (by decide) (by decide)⟩

theorem dealerTurnAux_props :
    ∀ (fuel : Nat) (hand deck : List Card) (s : List ServerPayload)
      (fh dk : List Card),
      dealerTurnAux fuel hand deck = some (s, fh, dk) →
      17 ≤ calculate_hand_sum fh ∧
      ∃ drawn : List Card,
        fh = hand ++ drawn ∧
        s = drawn.map (fun c => pack_server_payload RESULT_IN_PROGRESS c.1 c.2) ∧
        ∀ k < drawn.length, calculate_hand_sum (hand ++ drawn.take k) < 17
  | 0, hand, deck, s, fh, dk => by
    intro h
    simp [dealerTurnAux] at h
  | fuel + 1, hand, deck, s, fh, dk => by
    intro h
    simp only [dealerTurnAux] at h
    by_cases hlt : calculate_hand_sum hand < 17
    · rw [if_pos hlt] at h
      cases hp : listPop deck with
      | none => rw [hp] at h; simp at h
      | some cd =>
        obtain ⟨c, deck'⟩ := cd
        rw [hp] at h
        simp only [] at h
        cases hrec : dealerTurnAux fuel (hand ++ [c]) deck' with
        | none => rw [hrec] at h; simp at h
        | some out =>
          obtain ⟨s', fh', dk'⟩ := out
          rw [hrec] at h
          simp only [Option.some.injEq, Prod.mk.injEq] at h
          obtain ⟨hs, hfh, hdk⟩ := h
          obtain ⟨h17, drawn', hfh', hs', hpref⟩ :=
            dealerTurnAux_props fuel (hand ++ [c]) deck' s' fh' dk' hrec
          subst hs hfh hdk
          refine ⟨h17, c :: drawn', ?_, ?_, ?_⟩
          · rw [hfh', List.append_assoc]
            rfl
          · simp [hs']
          · intro k hk
            cases k with
            | zero => simpa using hlt
            | succ k =>
              have : calculate_hand_sum ((hand ++ [c]) ++ drawn'.take k) < 17 :=
                hpref k (by simpa using hk)
              simpa [List.append_assoc] using this
    · rw [if_neg hlt] at h
      simp only [Option.some.injEq, Prod.mk.injEq] at h
      obtain ⟨hs, hfh, hdk⟩ := h
      subst hs hfh hdk
      refine ⟨by omega, [], by simp, by simp, by simp⟩

/-- C6: whenever the dealer loop completes without an exception, the dealer
drew only from totals strictly below 17 (every draw happened while the
total so far was below 17, so in particular it never draws once the total
is 17 or more), every drawn card was sent as an IN_PROGRESS payload, and
the dealer's final total is at least 17. -/
theorem dealer_turn_stand_on_17 (hand deck : List Card)
    (s : List ServerPayload) (fh dk : List Card)
    (h : dealerTurn hand deck = some (s, fh, dk)) :
    17 ≤ calculate_hand_sum fh ∧
    ∃ drawn : List Card,
      fh = hand ++ drawn ∧
      s = drawn.map (fun c => pack_server_payload RESULT_IN_PROGRESS c.1 c.2) ∧
      ∀ k < drawn.length, calculate_hand_sum (hand ++ drawn.take k) < 17 :=
  dealerTurnAux_props (deck.length + 1) hand deck s fh dk h

/-- Witness for C6 at dealer (10,0),(6,1) drawing (5,2) and standing at 21. -/
theorem dealer_turn_stand_on_17_witness :
    dealerTurn [((10 : Nat), (0 : Nat)), (6, 1)] [(5, 2)] =
      some ([pack_server_payload RESULT_IN_PROGRESS 5 2],
        [(10, 0), (6, 1), (5, 2)], []) ∧
    (17 ≤ calculate_hand_sum [((10 : Nat), (0 : Nat)), (6, 1), (5, 2)] ∧
      ∃ drawn : List Card,
        [((10 : Nat), (0 : Nat)), (6, 1), (5, 2)] = [(10, 0), (6, 1)] ++ drawn ∧
        [pack_server_payload RESULT_IN_PROGRESS 5 2] =
          drawn.map (fun c => pack_server_payload RESULT_IN_PROGRESS c.1 c.2) ∧
        ∀ k < drawn.length,
          calculate_hand_sum ([(10, 0), (6, 1)] ++ drawn.take k) < 17) :=
  ⟨by decide,
    dealer_turn_stand_on_17 [(10, 0), (6, 1)] [(5, 2)]
      [pack_server_payload RESULT_IN_PROGRESS 5 2]
      [(10, 0), (6, 1), (5, 2)] [] (by decide)⟩

/-- C7: when the first received message unpacks as a Request whose magic
cookie is wrong, or whose type discriminator is not MESSAGE_TYPE_REQUEST,
the server sends zero payloads back and starts zero game rounds. -/
theorem bad_request_rejected (data : Bytes) (decks : Nat → List Card)
    (inputs : List Bytes) (m t rds : Nat) (nm : Bytes)
    (hu : unpack_request data = .fields ⟨m, t, rds, nm⟩)
    (hbad : m ≠ MAGIC_COOKIE ∨ t ≠ MESSAGE_TYPE_REQUEST) :
    handle_client data decks inputs = ([], 0) := by
  unfold handle_client
  rcases data with _ | ⟨b, bs⟩
  · simp [unpack_request] at hu
  · simp only [List.isEmpty_cons, Bool.false_eq_true, if_false, hu]
    rw [if_pos hbad]

/-- Witness for C7 at a 38-byte Request with magic cookie 0xDEADBEEF. -/
theorem bad_request_rejected_witness :
    (unpack_request badMagicRequest =
        .fields ⟨0xDEADBEEF, 0x03, 1, List.replicate 32 0⟩ ∧
      ((0xDEADBEEF : Nat) ≠ MAGIC_COOKIE ∨ (0x03 : Nat) ≠ MESSAGE_TYPE_REQUEST)) ∧
    handle_client badMagicRequest (fun _ => []) [] = ([], 0) :=
  ⟨⟨by decide, by decide⟩,
    bad_request_rejected badMagicRequest (fun _ => []) []
      0xDEADBEEF 0x03 1 (List.replicate 32 0) (by decide) (by decide)⟩

/-- C8: a connection that acquires an admission slot (positive semaphore
counter) runs the session and releases the slot exactly once, whether the
session body returns normally or raises, restoring the counter to its
value before the connection. -/
theorem admission_slot_released (sem : Nat) (body : Outcome) (hpos : 0 < sem) :
    (manage_connection sem body).releases = 1 ∧
    (manage_connection sem body).sem = sem ∧
    (manage_connection sem body).handled = true := by
  unfold manage_connection try_acquire release
  rw [if_neg (by omega)]
  cases body <;> exact ⟨rfl, by show sem - 1 + 1 = sem; omega, rfl⟩

/-- Witness for C8 at counter 3, on both body outcomes' shape (.exn). -/
theorem admission_slot_released_witness :
    0 < 3 ∧
    ((manage_connection 3 .exn).releases = 1 ∧
      (manage_connection 3 .exn).sem = 3 ∧
      (manage_connection 3 .exn).handled = true) :=
  ⟨by decide, admission_slot_released 3 .exn (by decide)⟩

/-- C9: decoding never extracts fields from an over-length buffer: on a
Request buffer longer than 38 bytes or a ClientDecision buffer longer than
10 bytes, `struct.unpack` fails (raises `struct.error`), so no prefix of
the buffer is ever decoded into fields. -/
theorem overlength_decode_fails (d1 d2 : Bytes)
    (h1 : 38 < d1.length) (h2 : 10 < d2.length) :
    unpack_request d1 = .error ∧ unpack_client_payload d2 = .error := by
  constructor
  · unfold unpack_request
    rw [if_neg (by omega), if_neg (by omega)]
  · unfold unpack_client_payload
    rw [if_neg (by omega), if_neg (by omega)]

/-- Witness for C9 at a 39-byte and an 11-byte all-zero buffer. -/
theorem overlength_decode_fails_witness :
    (38 < (List.replicate 39 0 : Bytes).length ∧
      10 < (List.replicate 11 0 : Bytes).length) ∧
    (unpack_request (List.replicate 39 0) = .error ∧
      unpack_client_payload (List.replicate 11 0) = .error) :=
  ⟨⟨by decide, by decide⟩,
    overlength_decode_fails (List.replicate 39 0) (List.replicate 11 0)
      (by decide) (by decide)⟩

/-- C10: if the player's two dealt cards already total 21 or more, the
player-turn loop is never entered: nothing is read from the input stream,
no payload (in particular no LOSS-on-bust) is sent by the loop, and the
round falls through to the dealer turn; at the concrete two-Ace round
(player total 22, dealer busts at 25) the Resolve comparison still yields
WIN for the over-21 player. -/
theorem initial_21_skips_player_turn (p1 p2 : Card) (deck : List Card)
    (inputs : List Bytes) (h : 21 ≤ calculate_hand_sum [p1, p2]) :
    playerTurn [p1, p2] deck inputs = ([], [p1, p2], deck, inputs, .fall) ∧
    play_game_round acesDeck [] =
      ([pack_server_payload RESULT_IN_PROGRESS 1 0,
        pack_server_payload RESULT_IN_PROGRESS 1 1,
        pack_server_payload RESULT_IN_PROGRESS 10 2,
        pack_server_payload RESULT_IN_PROGRESS 6 3,
        pack_server_payload RESULT_IN_PROGRESS 9 0,
        pack_server_payload RESULT_WIN 0 0], [], .done) :=
  ⟨playerTurn_of_ge21 [p1, p2] deck inputs h, by decide⟩

/-- Witness for C10 at a two-Ace player hand (total 22). -/
theorem initial_21_skips_player_turn_witness :
    21 ≤ calculate_hand_sum [((1 : Nat), (0 : Nat)), (1, 1)] ∧
    (playerTurn [(1, 0), (1, 1)] [] [standBuf] =
        ([], [(1, 0), (1, 1)], [], [standBuf], .fall) ∧
      play_game_round acesDeck [] =
        ([pack_server_payload RESULT_IN_PROGRESS 1 0,
          pack_server_payload RESULT_IN_PROGRESS 1 1,
          pack_server_payload RESULT_IN_PROGRESS 10 2,
          pack_server_payload RESULT_IN_PROGRESS 6 3,
          pack_server_payload RESULT_IN_PROGRESS 9 0,
          pack_server_payload RESULT_WIN 0 0], [], .done)) :=
  ⟨by decide, initial_21_skips_player_turn (1, 0) (1, 1) [] [standBuf] (by decide)⟩

end Blackjack
